import Mathlib

/-!
Verification of the CreatorPulse content-aggregation and bulk-orchestration
core: a shallow embedding, in Lean, of `app/services/content_fetcher.py`,
`app/services/trend_engine.py`, `app/services/groq_client.py`,
`app/services/newsletter_generator.py`, `app/services/supabase_client.py`
(the parts the core touches) and `app/services/bulk_operations.py`.

External collaborators (the relational store, feed parsers, scraping
libraries, the LLM completion service, the e-mail service) are modelled as
environment records whose fields give the collaborator's answer for each
call; an `Except String` result models a Python call that may raise.
Machine floats that only ever hold small counts and halves are modelled as
rationals.  Python `str` values are modelled as Lean `String`, and the
Python string primitives used by the code (strip, split, replace,
startswith, truthiness) are re-implemented below on `List Char` so that
they compute by kernel reduction.
-/

namespace CreatorPulse

/-- Python `str.split()` / `str.strip()` whitespace set (ASCII part). -/
def pyIsSpace (c : Char) : Bool :=
  c = ' ' || c = '\t' || c = '\n' || c = '\r' || c = Char.ofNat 11 || c = Char.ofNat 12

/-- Python `str.strip()` on the character list. -/
def pyStripL (l : List Char) : List Char :=
  ((l.dropWhile pyIsSpace).reverse.dropWhile pyIsSpace).reverse

/-- Python `str.strip()`. -/
def pyStrip (s : String) : String := String.mk (pyStripL s.data)

/-- Python `str.rstrip("/")`. -/
def rstripSlash (s : String) : String :=
  String.mk ((s.data.reverse.dropWhile (fun c => c = '/')).reverse)

/-- Python `str.startswith`. -/
def pyStartsWith (s pat : String) : Bool := pat.data.isPrefixOf s.data

/-- Helper for Python `pat in s` (substring containment). -/
def infixAt (pat : List Char) : List Char → Bool
  | [] => pat.isEmpty
  | c :: cs => pat.isPrefixOf (c :: cs) || infixAt pat cs

/-- Python `pat in s` on strings. -/
def pyContains (s pat : String) : Bool := infixAt pat.data s.data

/-- Accumulator pass of `pyWords`. -/
def pyWordsAux : List Char → List Char → List (List Char)
  | cur, [] => if cur.isEmpty then [] else [cur.reverse]
  | cur, c :: cs =>
    if pyIsSpace c then
      if cur.isEmpty then pyWordsAux [] cs else cur.reverse :: pyWordsAux [] cs
    else pyWordsAux (c :: cur) cs

/-- Python `str.split()` (no argument): split on whitespace runs, dropping
empty chunks. -/
def pyWords (l : List Char) : List (List Char) := pyWordsAux [] l

/-- Python truthiness of an optional string (`None` and `""` are falsy). -/
def pyTruthy : Option String → Bool
  | none => false
  | some s => !s.isEmpty

/-- Python `a or b` on optional strings. -/
def pyOr (a b : Option String) : Option String := if pyTruthy a then a else b

/-- Python `dict.fromkeys` de-duplication: keep first occurrences. -/
def pyDedup : List String → List String := List.eraseDups

/-!  ## content_fetcher.py  -/

/-- One row a feed parser returns (`feedparser` entry); `none` models a
missing attribute, handled by the code's `getattr(e, key, default)`. -/
structure RawEntry where
  title : Option String
  link : Option String
  summary : Option String
deriving DecidableEq

/-- A content item as produced by the per-source fetchers. -/
structure ContentItem where
  title : String
  url : String
  summary : String
deriving DecidableEq

/-- A tweet object yielded by `snscrape`; both the title and the summary are
read from its `content` attribute (`getattr(tweet, "content", default)`). -/
structure Tweet where
  content : Option String
  id : Option String
deriving DecidableEq

/-- The readability-proxy (r.jina.ai) answer for one Nitter host: the HTTP
status code and the list of `status/(\d+)` ids found in the response text. -/
structure JinaResp where
  status : Nat
  statusIds : List String
deriving DecidableEq

/-- The upstream behaviour of one social-feed source: what `snscrape`
yielded before terminating or failing, what `feedparser` answers for each
RSS-bridge mirror, and what the readability proxy answers for each host
(`Except` = the call raised). -/
structure TwitterUpstream where
  primaryYield : List Tweet
  mirror : String → Except Unit (List RawEntry)
  jina : String → Except Unit JinaResp

/-- `_normalize_twitter` from content_fetcher.py. -/
def normalize_twitter (value : String) : String :=
  let v := pyStrip value
  let v :=
    if pyStartsWith v "http" then
      let v := (v.replace "https://x.com/" "").replace "http://x.com/" ""
      let v := (v.replace "https://twitter.com/" "").replace "http://twitter.com/" ""
      ((v.splitOn "/").headD "")
    else v
  if pyStartsWith v "@" then String.mk (v.data.drop 1) else v

def nitter_hosts : List String :=
  ["https://nitter.net", "https://nitter.poast.org", "https://nitter.fdn.fr", "https://ntrqq.com"]

def jina_hosts : List String :=
  ["nitter.net", "nitter.poast.org", "nitter.fdn.fr", "ntrqq.com"]

/-- The item built from one `snscrape` tweet. -/
def tweetItem (handle : String) (t : Tweet) : ContentItem :=
  { title := t.content.getD "Tweet"
    url := "https://x.com/" ++ handle ++ "/status/" ++ t.id.getD ""
    summary := t.content.getD "" }

/-- The item built from one feed entry, with the tier's default title. -/
def entryItem (defTitle : String) (e : RawEntry) : ContentItem :=
  { title := e.title.getD defTitle
    url := e.link.getD ""
    summary := e.summary.getD "" }

/-- The Nitter RSS-mirror tier of `_fetch_twitter`: hosts are tried in
order; a raising or entry-less host is skipped; the first host with entries
supplies (up to 10 of) them. -/
def mirrorTier (f : String → Except Unit (List RawEntry)) : List String → List ContentItem
  | [] => []
  | h :: hs =>
    match f h with
    | .error _ => mirrorTier f hs
    | .ok es => if es.isEmpty then mirrorTier f hs else (es.take 10).map (entryItem "Tweet")

/-- The readability-proxy tier of `_fetch_twitter`: hosts are tried in
order, hosts with status ≥ 400 or no ids are skipped, the first host with
ids supplies them (de-duplicated, order kept); an exception anywhere aborts
the whole tier with no ids. -/
def jinaTier (f : String → Except Unit JinaResp) : List String → List String
  | [] => []
  | h :: hs =>
    match f h with
    | .error _ => []
    | .ok r =>
      if 400 ≤ r.status then jinaTier f hs
      else if r.statusIds.isEmpty then jinaTier f hs
      else pyDedup r.statusIds

/-- The item built from one proxy-extracted status id (empty title tier:
title is the constant "Tweet" and the summary is empty). -/
def jinaItem (handle sid : String) : ContentItem :=
  { title := "Tweet", url := "https://x.com/" ++ handle ++ "/status/" ++ sid, summary := "" }

/-- `_fetch_twitter` from content_fetcher.py: primary scraping tier, then
the RSS-mirror tier, then the readability-proxy tier; each tier's failures
are swallowed, and the first tier that yielded items wins. -/
def fetch_twitter (env : TwitterUpstream) (handle_or_url : String) : List ContentItem :=
  let handle := normalize_twitter handle_or_url
  let primary := (env.primaryYield.take 10).map (tweetItem handle)
  if !primary.isEmpty then primary
  else
    let fromMirror := mirrorTier env.mirror nitter_hosts
    if !fromMirror.isEmpty then fromMirror
    else ((jinaTier env.jina jina_hosts).take 10).map (jinaItem handle)

/-- A flat channel-listing entry returned by `yt_dlp`. -/
structure YtEntry where
  id : Option String
  url : Option String
  title : Option String
  description : Option String
  webpage_url : Option String
deriving DecidableEq

/-- The upstream behaviour of one video-channel source. -/
structure YoutubeUpstream where
  feedParse : String → Except Unit (List RawEntry)
  ytdlp : String → Except Unit (List YtEntry)

/-- The item built from one `yt_dlp` entry. -/
def ytItem (e : YtEntry) : ContentItem :=
  let video_id := pyOr e.id e.url
  { title := e.title.getD "Video"
    url := if pyTruthy video_id then "https://www.youtube.com/watch?v=" ++ video_id.getD ""
           else e.webpage_url.getD ""
    summary := e.description.getD "" }

/-- The `@handle` → "/videos" listing normalization in `_fetch_youtube`. -/
def ytNormalizeUrl (channel_url : String) : String :=
  if pyContains channel_url "youtube.com/@" && !pyContains channel_url "/videos" then
    rstripSlash channel_url ++ "/videos"
  else channel_url

/-- `_fetch_youtube` from content_fetcher.py: direct feed URLs are parsed
directly; otherwise the normalized URL goes through the `yt_dlp` flat
extractor; any failure yields the empty list. -/
def fetch_youtube (env : YoutubeUpstream) (channel_url : String) : List ContentItem :=
  if pyContains channel_url "feeds/videos.xml" then
    match env.feedParse channel_url with
    | .error _ => []
    | .ok es => (es.take 10).map (entryItem "Video")
  else
    match env.ytdlp (ytNormalizeUrl channel_url) with
    | .error _ => []
    | .ok entries => (entries.take 10).map ytItem

/-- `_fetch_rss` from content_fetcher.py, applied to the outcome of
`feedparser.parse` on the source's feed URL; a raising parse yields []. -/
def fetch_rss (feed : Except Unit (List RawEntry)) : List ContentItem :=
  match feed with
  | .error _ => []
  | .ok es => (es.take 10).map (entryItem "Article")

/-!  ## fetch_all_sources and save_content_items  -/

/-- One `user_sources` row as returned by `list_sources`. -/
structure SourceRow where
  id : Nat
  source_type : String
  source_value : String
  boost_factor : ℚ
deriving DecidableEq

/-- Python `int(f)` on the (exact rational model of the) float
`boost_factor`: truncation toward zero. -/
def pyInt (q : ℚ) : Int := if 0 ≤ q then ⌊q⌋ else ⌈q⌉

/-- `num_copies = max(1, int(boost_factor))` from `fetch_all_sources`. -/
def numCopies (boost_factor : ℚ) : Nat := (max 1 (pyInt boost_factor)).toNat

/-- A fetched item after `fetch_all_sources` tags it with its source and
workspace. -/
structure TaggedItem where
  title : String
  url : String
  summary : String
  source_id : Nat
  workspace_id : Option String
deriving DecidableEq

def tagItem (source_id : Nat) (workspace_id : Option String) (it : ContentItem) : TaggedItem :=
  { title := it.title, url := it.url, summary := it.summary
    source_id := source_id, workspace_id := workspace_id }

/-- The boost-replication step of `fetch_all_sources`: every fetched item
of the source is tagged and appended `num_copies` times. -/
def boostSource (s : SourceRow) (workspace_id : Option String)
    (subitems : List ContentItem) : List TaggedItem :=
  subitems.flatMap (fun it => List.replicate (numCopies s.boost_factor) (tagItem s.id workspace_id it))

/-- One `content_items` row as built by `save_content_items`. -/
structure ContentItemRow where
  user_id : String
  source_id : Nat
  title : String
  url : String
  summary : String
  workspace_id : Option String
deriving DecidableEq

def rowOfItem (user_id : String) (workspace_id : Option String) (it : TaggedItem) : ContentItemRow :=
  { user_id := user_id, source_id := it.source_id, title := it.title
    url := it.url, summary := it.summary
    workspace_id := if workspace_id.isSome then workspace_id else none }

/-- `save_content_items` from supabase_client.py.  `upsertOk` tells whether
the client's bulk upsert is supported and `insertOk` whether the per-row
fallback insert of a given row index succeeds; per-row failures are
swallowed, and the function returns `len(rows)` - the number of rows
attempted - on every path. -/
def save_content_items (upsertOk : Bool) (insertOk : Nat → Bool)
    (user_id : String) (items : List TaggedItem) (workspace_id : Option String) : Nat :=
  if items.isEmpty then 0
  else
    let rows := items.map (rowOfItem user_id workspace_id)
    -- the upsert / per-row-insert fallback only performs store writes; the
    -- returned count does not depend on upsertOk or insertOk
    rows.length

/-- The persistent-store and upstream environment of `fetch_all_sources`:
the sources `list_sources` returns for the scope, the upstream behaviour of
each source value, and the persistence behaviour. -/
structure FetchEnv where
  sources : List SourceRow
  twitter : String → TwitterUpstream
  youtube : String → YoutubeUpstream
  rss : String → Except Unit (List RawEntry)
  upsertOk : Bool
  insertOk : Nat → Bool

/-- The per-source dispatch inside the `fetch_all_sources` loop. -/
def fetchForSource (env : FetchEnv) (s : SourceRow) : List ContentItem :=
  if s.source_type = "twitter" then fetch_twitter (env.twitter s.source_value) s.source_value
  else if s.source_type = "youtube" then fetch_youtube (env.youtube s.source_value) s.source_value
  else if s.source_type = "rss" then fetch_rss (env.rss s.source_value)
  else []

/-- `fetch_all_sources` from content_fetcher.py. -/
def fetch_all_sources (env : FetchEnv) (user_id : String) (workspace_id : Option String) : Nat :=
  let collected := env.sources.flatMap (fun s => boostSource s workspace_id (fetchForSource env s))
  save_content_items env.upsertOk env.insertOk user_id collected workspace_id

/-!  ## trend_engine.py  -/

def stopwords : List String :=
  ["the", "a", "an", "and", "or", "for", "to", "of", "in", "on", "at", "by",
   "with", "from", "is", "are", "was", "were", "be", "been", "being", "this",
   "that", "those", "these", "it", "its", "as", "about", "into", "your",
   "you", "our", "we", "their", "his", "her", "they", "i"]

/-- Is `c` kept by the regex `[^a-z0-9\s#]` → `" "` substitution? -/
def keptChar (c : Char) : Bool :=
  ('a' ≤ c && c ≤ 'z') || ('0' ≤ c && c ≤ '9') || pyIsSpace c || c = '#'

/-- `_tokenize` from trend_engine.py: lowercase, replace every character
outside `[a-z0-9\s#]` by a space, split on whitespace, drop stopwords. -/
def tokenize (text : String) : List String :=
  let cleaned := (text.data.map Char.toLower).map (fun c => if keptChar c then c else ' ')
  ((pyWords cleaned).map String.mk).filter (fun t => !stopwords.contains t)

/-- An item as seen by the trend engine and the draft pipeline: one
`content_items` row (`created_at` is the parsed timestamp in seconds;
`none` models a missing, non-string or unparseable timestamp). -/
structure ContentRow where
  id : Int
  title : String
  url : String
  summary : String
  created_at : Option Int
deriving DecidableEq

/-- `_extract_terms` from trend_engine.py: tokens of `title` then
`summary`, keeping hashtags and words of length ≥ 4. -/
def extract_terms (it : ContentRow) : List String :=
  (tokenize it.title ++ tokenize it.summary).filter
    (fun t => pyStartsWith t "#" || 4 ≤ t.length)

/-- The two-window partition of `compute_trends`: for each item, its terms
go to the recent counter when its timestamp parses and is within 48h, and
to the baseline counter otherwise (48h-7d window, older, or unparseable). -/
def windowTerms (items : List ContentRow) (now : Int) : List String × List String :=
  let recent_cut := now - 48 * 3600
  let baseline_cut := now - 7 * 24 * 3600
  items.foldr
    (fun it acc =>
      let terms := extract_terms it
      match it.created_at with
      | some dt =>
        if recent_cut ≤ dt then (terms ++ acc.1, acc.2)
        else if baseline_cut ≤ dt then (acc.1, terms ++ acc.2)
        else (acc.1, terms ++ acc.2)
      | none => (acc.1, terms ++ acc.2))
    ([], [])

/-- `score(term) = float(recent) - 0.5 * float(baseline)` and the
`score > 0` filter of `compute_trends`, over the union of the two
counters' key sets. -/
def trendScores (recentTerms baselineTerms : List String) : List (String × ℚ) :=
  let all_terms := pyDedup (pyDedup recentTerms ++ pyDedup baselineTerms)
  all_terms.filterMap (fun term =>
    let r := recentTerms.count term
    let b := baselineTerms.count term
    let score : ℚ := (r : ℚ) - (1 / 2 : ℚ) * (b : ℚ)
    if 0 < score then some (term, score) else none)

/-- Stable insertion into a descending-by-score list: the new pair goes in
front of the first strictly smaller score, after equal scores. -/
def insertDesc (x : String × ℚ) : List (String × ℚ) → List (String × ℚ)
  | [] => [x]
  | y :: ys => if y.2 ≤ x.2 then x :: y :: ys else y :: insertDesc x ys

/-- Python `sorted(pairs, key=score, reverse=True)`: a stable descending
sort by score (insertion sort is stable, so it computes the same list). -/
def sortByScoreDesc : List (String × ℚ) → List (String × ℚ)
  | [] => []
  | x :: xs => insertDesc x (sortByScoreDesc xs)

/-- `compute_trends` from trend_engine.py. -/
def compute_trends (items : List ContentRow) (now : Int) : List (String × ℚ) :=
  if items.isEmpty then []
  else
    let w := windowTerms items now
    (sortByScoreDesc (trendScores w.1 w.2)).take 10

/-!  ## groq_client.py  -/

/-- One stored style-sample object as listed by `list_style_files`. -/
structure StyleObj where
  name : Option String
  path : Option String
deriving DecidableEq

/-- The draft pipeline's environment: the store rows, the style-sample
object store (`download` gives the UTF-8 decoded bytes; decoding with
`errors="ignore"` never raises), the LLM credential and SDK availability,
and the completion call (`llm prompt temperature`, already folded over the
3 tenacity retries: its error is the error left after retries are
exhausted). -/
structure GenEnv where
  recentContent : String → List ContentRow
  styleFiles : String → List StyleObj
  download : String → String → Option String
  groqApiKey : Option String
  groqSdkAvailable : Bool
  llm : String → ℚ → Except String String
  now : Int

/-- The `- [title](url)` lines of the keyless fallback draft:
`content_items[: max(1, num_links)]`. -/
def curatedLinkLines (content_items : List ContentRow) (num_links : Int) : List String :=
  ((content_items.take (max 1 num_links).toNat).map
    (fun c => "- [" ++ c.title ++ "](" ++ c.url ++ ")"))

/-- The `- term` lines of the fallback draft: `trends[: max(0, num_trends)]`. -/
def trendLines (trends : List String) (num_trends : Int) : String :=
  String.intercalate "\n" ((trends.take (max 0 num_trends).toNat).map (fun t => "- " ++ t))

def defaultTrendsBlock : String :=
  "- AI-assisted creation workflows\n- Platform algorithm shifts\n- Audience retention strategies"

/-- The deterministic draft `generate_draft` falls back to when no
`GROQ_API_KEY` is configured (the f-string before `.strip()`). -/
def fallbackDraftRaw (content_items : List ContentRow) (num_links : Int)
    (trends : List String) (num_trends : Int) : String :=
  let top_lines := String.intercalate "\n" (curatedLinkLines content_items num_links)
  let trends_lines := trendLines trends num_trends
  "\n### Intro\nHere\x27s your curated daily pulse, tailored to your style.\n\n### Curated Links\n"
    ++ top_lines
    ++ "\n\n### Trends to Watch\n"
    ++ (if !trends_lines.isEmpty then trends_lines else defaultTrendsBlock)
    ++ "\n"

def fallbackDraft (content_items : List ContentRow) (num_links : Int)
    (trends : List String) (num_trends : Int) : String :=
  pyStrip (fallbackDraftRaw content_items num_links trends num_trends)

/-- The second fallback draft, used when the key is set but the groq SDK
cannot be imported (`content_items[:5]`, constant trends block). -/
def sdkFallbackDraft (content_items : List ContentRow) : String :=
  let top_lines := String.intercalate "\n"
    ((content_items.take 5).map (fun c => "- [" ++ c.title ++ "](" ++ c.url ++ ")"))
  pyStrip ("\n### Intro\nHere\x27s your curated daily pulse, tailored to your style.\n\n### Curated Links\n"
    ++ top_lines ++ "\n\n### Trends to Watch\n" ++ defaultTrendsBlock ++ "\n")

/-- `_build_prompt` from groq_client.py (the f-string before `.strip()`). -/
def build_prompt (creator_name : String) (style_samples : List String)
    (content_items : List ContentRow) (trends : List String) (num_trends : Int)
    (include_intro include_links include_trends : Bool) : String :=
  let style_text := if style_samples.isEmpty then "" else String.intercalate "\n\n" (style_samples.take 3)
  let curated_block := String.intercalate "\n"
    ((content_items.take 12).map (fun item => "- " ++ item.title ++ " — " ++ item.url))
  let trends_lines := trendLines trends num_trends
  let sections := (if include_intro then ["Include: Intro"] else [])
    ++ (if include_links then ["Curated Links"] else [])
    ++ (if include_trends then ["Trends to Watch"] else [])
  pyStrip ("\nYou are writing a curated newsletter for " ++ creator_name
    ++ ".\nUse their writing style from samples and summarize top 5 insights.\nInclude: "
    ++ String.intercalate ", " sections
    ++ ".\nReturn markdown text.\n\nSTYLE SAMPLES (verbatim):\n" ++ style_text
    ++ "\n\nCONTENT CANDIDATES (title and URL):\n" ++ curated_block
    ++ "\n\nTRENDS TO CONSIDER (optional):\n" ++ trends_lines ++ "\n")

/-- `generate_draft` from groq_client.py: keyless ⇒ deterministic fallback;
key set but SDK missing ⇒ second fallback; otherwise the (retried) LLM call
on the built prompt.  The swallowed analytics block does not affect the
returned text. -/
def generate_draft (env : GenEnv) (style_samples : List String)
    (content_items : List ContentRow) (creator_name : String) (temperature : ℚ)
    (num_links : Int) (trends : List String) (num_trends : Int)
    (include_intro include_links include_trends : Bool) : Except String String :=
  match env.groqApiKey with
  | none => .ok (fallbackDraft content_items num_links trends num_trends)
  | some _ =>
    if !env.groqSdkAvailable then .ok (sdkFallbackDraft content_items)
    else
      let prompt := build_prompt creator_name style_samples content_items trends num_trends
        include_intro include_links include_trends
      env.llm prompt (max 0 (min 1 temperature))

/-!  ## newsletter_generator.py  -/

/-- `list_recent_content` from supabase_client.py: the store returns the
scope's rows ordered by `created_at` descending, truncated to `limit`. -/
def list_recent_content (env : GenEnv) (user_id : String) (limit : Nat) : List ContentRow :=
  (env.recentContent user_id).take limit

/-- `_load_style_samples` from newsletter_generator.py. -/
def load_style_samples (env : GenEnv) (user_id : String) : List String :=
  ((env.styleFiles user_id).take 3).filterMap (fun obj =>
    let name := (pyOr obj.name obj.path).getD ""
    if name.isEmpty then none
    else
      match env.download user_id name with
      | none => none
      | some data => if data.isEmpty then none else some (String.mk (data.data.take 6000)))

/-- The outcome of `generate_and_save_draft`: the returned text and whether
`save_draft` was called. -/
structure GenResult where
  text : String
  saved : Bool
deriving DecidableEq

/-- The tail of `generate_and_save_draft` after the selection filter: style
samples, trends, the LLM (or fallback) call, and the conditional save. -/
def draftFromItems (env : GenEnv) (user_id : String) (content_items : List ContentRow)
    (temperature : ℚ) (num_links num_trends : Int)
    (include_intro include_links include_trends : Bool) : Except String GenResult :=
  if content_items.isEmpty then .ok ⟨"", false⟩
  else
    let style_samples := load_style_samples env user_id
    let trend_pairs := compute_trends content_items env.now
    let trend_terms := trend_pairs.map Prod.fst
    match generate_draft env style_samples content_items "Creator" temperature num_links
      trend_terms num_trends include_intro include_links include_trends with
    | .error e => .error e
    | .ok draft_text => .ok ⟨draft_text, !draft_text.isEmpty⟩

/-- `generate_and_save_draft` from newsletter_generator.py.  The filter
clause is Python's `if selected_item_ids:` - a `None` **or empty** selection
leaves the loaded items unfiltered. -/
def generate_and_save_draft (env : GenEnv) (user_id : String)
    (selected_item_ids : Option (List Int)) (temperature : ℚ) (num_links num_trends : Int)
    (include_intro include_links include_trends : Bool) : Except String GenResult :=
  let content_items := list_recent_content env user_id 50
  let content_items :=
    match selected_item_ids with
    | some ids => if ids.isEmpty then content_items
                  else content_items.filter (fun c => ids.contains c.id)
    | none => content_items
  draftFromItems env user_id content_items temperature num_links num_trends
    include_intro include_links include_trends

/-!  ## bulk_operations.py  -/

/-- The progress dict of a bulk operation. -/
structure Progress where
  total : Nat
  completed : Nat
  failed : Nat
deriving DecidableEq

/-- The per-target result dict recorded in `results[workspace_id]`. -/
inductive TargetResult where
  | fetchSuccess (items_fetched : Nat)
  | generateSuccess (draft_generated : Bool) (length : Nat)
  | sendSuccess (recipient : String)
  | failed (error : String)
deriving DecidableEq

/-- The `status` field of a per-target result. -/
def TargetResult.status : TargetResult → String
  | .failed _ => "failed"
  | _ => "success"

/-- The summary an `execute_bulk_*` method returns. -/
structure Summary where
  status : String
  progress : Progress
  results : List (String × TargetResult)
deriving DecidableEq

/-- One row written by `update_bulk_operation_status` (the `started_at` /
`completed_at` timestamps are not modelled). -/
structure StatusUpdate where
  operation_id : Nat
  status : String
  progress : Option Progress
  results : Option (List (String × TargetResult))
  error_message : Option String
deriving DecidableEq

/-- `update_bulk_operation_status` from supabase_client.py, as the update
row it writes: a falsy (empty) results dict or error message is not
stored.  (The progress dict always has its three keys, hence is always
truthy when passed.) -/
def update_bulk_operation_status (operation_id : Nat) (status : String)
    (progress : Option Progress) (results : List (String × TargetResult))
    (error_message : Option String) : StatusUpdate :=
  { operation_id := operation_id, status := status, progress := progress
    results := if results.isEmpty then none else some results
    error_message := if pyTruthy error_message then error_message else none }

/-- One `bulk_operations` row, as read back by the execute methods. -/
structure OperationRow where
  workspace_id : String
  operation_type : String
  target_workspaces : List String
  created_by : String
deriving DecidableEq

/-- A draft row as returned by `get_latest_draft`. -/
structure DraftRow where
  id : Nat
  draft_text : String
deriving DecidableEq

/-- The collaborator environment of `BulkOperationManager`: each field is
the store's / service's answer for a call (`Except.error` = the call
raised).  `members` gives the `user_id` column of the workspace's
`workspace_members` rows, `usersEmail` the `email` column of the `users`
rows with the given id. -/
structure BulkEnv where
  operations : Nat → Option OperationRow
  members : String → Except String (List String)
  usersEmail : String → Except String (List String)
  latestDraft : String → Except String (Option DraftRow)
  fetchAllSources : String → String → Except String Nat
  genDraft : String → String → Except String String
  markdownToHtml : String → String
  injectTracking : String → String → Nat → String
  sendEmail : String → String → String → Except String Unit
  markLatestDraftSent : String → Except String Unit

/-- Python dict assignment `results[workspace_id] = v`: replace the value
if the key exists (keeping its position), else append. -/
def dictSet (m : List (String × TargetResult)) (k : String) (v : TargetResult) :
    List (String × TargetResult) :=
  if m.any (fun p => p.1 = k) then m.map (fun p => if p.1 = k then (k, v) else p)
  else m ++ [(k, v)]

/-- The per-target loop shared by the three execute methods: each target's
result is recorded in the results dict and exactly one of the
`completed` / `failed` counters is incremented. -/
def runTargetsAux (f : String → TargetResult) :
    List String → List (String × TargetResult) × Nat × Nat →
    List (String × TargetResult) × Nat × Nat
  | [], acc => acc
  | w :: ws, acc =>
    let tr := f w
    let acc' :=
      if tr.status = "success" then (dictSet acc.1 w tr, acc.2.1 + 1, acc.2.2)
      else (dictSet acc.1 w tr, acc.2.1, acc.2.2 + 1)
    runTargetsAux f ws acc'

def runTargets (f : String → TargetResult) (targets : List String) :
    List (String × TargetResult) × Nat × Nat :=
  runTargetsAux f targets ([], 0, 0)

deriving instance DecidableEq for Except

/-- The outcome of an execute method: the returned (or raised) summary and
the `update_bulk_operation_status` writes it performed. -/
structure BOResult where
  outcome : Except String Summary
  updates : List StatusUpdate
deriving DecidableEq

/-- The shared skeleton of the three execute methods: read the operation
row (raising `ValueError("Operation not found")` **before** the try block
when absent - no status update happens in that case), mark it running, run
the per-target loop, compute `final_status` (the source's
`"completed" if progress["failed"] == 0 else "completed"`), write the final
update and return the summary. -/
def executeBulk (targetStep : String → TargetResult) (env : BulkEnv)
    (operation_id : Nat) : BOResult :=
  match env.operations operation_id with
  | none => { outcome := .error "Operation not found", updates := [] }
  | some operation =>
    let runningUpd := update_bulk_operation_status operation_id "running" none [] none
    let target_workspaces := operation.target_workspaces
    let r := runTargets targetStep target_workspaces
    let progress : Progress := ⟨target_workspaces.length, r.2.1, r.2.2⟩
    let final_status := if progress.failed = 0 then "completed" else "completed"
    let finalUpd := update_bulk_operation_status operation_id final_status (some progress) r.1 none
    { outcome := .ok ⟨final_status, progress, r.1⟩, updates := [runningUpd, finalUpd] }

/-- The per-target body of `execute_bulk_fetch`. -/
def fetchTarget (env : BulkEnv) (workspace_id : String) : TargetResult :=
  match env.members workspace_id with
  | .error e => .failed e
  | .ok [] => .failed "No members found"
  | .ok (user_id :: _) =>
    match env.fetchAllSources user_id workspace_id with
    | .error e => .failed e
    | .ok num_items => .fetchSuccess num_items

/-- `execute_bulk_fetch` from bulk_operations.py. -/
def execute_bulk_fetch (env : BulkEnv) (operation_id : Nat) : BOResult :=
  executeBulk (fetchTarget env) env operation_id

/-- The keyword arguments `generate_and_save_draft` accepts (its
keyword-only signature in newsletter_generator.py). -/
def generateAndSaveDraftAccepted : List String :=
  ["user_id", "selected_item_ids", "temperature", "num_links", "num_trends",
   "include_intro", "include_links", "include_trends"]

/-- The keyword arguments `execute_bulk_generate` passes at its call
site. -/
def bulkGenerateCallKwargs : List String :=
  ["user_id", "workspace_id", "selected_item_ids", "temperature", "num_links"]

/-- The `TypeError` message Python raises when the call site passes a
keyword the signature does not accept. -/
def unexpectedKwMsg (kw : String) : String :=
  "generate_and_save_draft() got an unexpected keyword argument " ++ kw

/-- The call `generate_and_save_draft(user_id=..., workspace_id=..., ...)`
in `execute_bulk_generate`: Python binds the keyword arguments against the
callee's signature **before** running its body, raising `TypeError` when
one is not accepted; only if all bind does the draft pipeline
(`env.genDraft`) run. -/
def callBulkGenerate (env : BulkEnv) (user_id workspace_id : String) : Except String String :=
  match bulkGenerateCallKwargs.filter (fun k => !generateAndSaveDraftAccepted.contains k) with
  | [] => env.genDraft user_id workspace_id
  | kw :: _ => .error (unexpectedKwMsg kw)

/-- The per-target body of `execute_bulk_generate`. -/
def generateTarget (env : BulkEnv) (workspace_id : String) : TargetResult :=
  match env.members workspace_id with
  | .error e => .failed e
  | .ok [] => .failed "No members found"
  | .ok (user_id :: _) =>
    match callBulkGenerate env user_id workspace_id with
    | .error e => .failed e
    | .ok draft_text =>
      if !draft_text.isEmpty then .generateSuccess true draft_text.length
      else .generateSuccess false 0

/-- `execute_bulk_generate` from bulk_operations.py (`temperature` and
`num_links` are forwarded into the failing keyword call and never reach the
pipeline). -/
def execute_bulk_generate (env : BulkEnv) (operation_id : Nat)
    (_temperature : ℚ) (_num_links : Int) : BOResult :=
  executeBulk (generateTarget env) env operation_id

/-- The tracking endpoint base URL hard-coded in `execute_bulk_send`. -/
def bulkApiUrl : String := "https://npedokgktkcbeltkaovz.supabase.co/functions/v1"

/-- The per-target body of `execute_bulk_send`. -/
def sendTarget (env : BulkEnv) (workspace_id : String) : TargetResult :=
  match env.members workspace_id with
  | .error e => .failed e
  | .ok [] => .failed "No members found"
  | .ok (user_id :: _) =>
    match env.usersEmail user_id with
    | .error e => .failed e
    | .ok [] => .failed "User not found"
    | .ok (user_email :: _) =>
      match env.latestDraft user_id with
      | .error e => .failed e
      | .ok none => .failed "No draft available"
      | .ok (some latest_draft) =>
        if latest_draft.draft_text.isEmpty then .failed "No draft available"
        else
          let html := env.injectTracking (env.markdownToHtml latest_draft.draft_text)
            user_id latest_draft.id
          match env.sendEmail user_email "Your CreatorPulse Draft" html with
          | .error e => .failed e
          | .ok _ =>
            match env.markLatestDraftSent user_id with
            | .error e => .failed e
            | .ok _ => .sendSuccess user_email

/-- `execute_bulk_send` from bulk_operations.py. -/
def execute_bulk_send (env : BulkEnv) (operation_id : Nat) : BOResult :=
  executeBulk (sendTarget env) env operation_id

/-!  ## Concrete scenario environments  -/

/-- Three-target scenario: workspace "B" has no members, "A" and "C" have a
member whose e-mail resolves, a non-empty latest draft exists and the
e-mail delivery succeeds. -/
def envC1 : BulkEnv :=
  { operations := fun oid =>
      if oid = 1 then some ⟨"agency", "newsletter_send", ["A", "B", "C"], "operator"⟩ else none
    members := fun w =>
      if w = "A" then .ok ["ua"] else if w = "C" then .ok ["uc"] else .ok []
    usersEmail := fun u =>
      if u = "ua" then .ok ["a@example.com"]
      else if u = "uc" then .ok ["c@example.com"] else .ok []
    latestDraft := fun _ => .ok (some ⟨7, "Hello"⟩)
    fetchAllSources := fun _ _ => .ok 0
    genDraft := fun _ _ => .ok ""
    markdownToHtml := fun s => s
    injectTracking := fun h _ _ => h
    sendEmail := fun _ _ _ => .ok ()
    markLatestDraftSent := fun _ => .ok () }

/-- An environment whose store has no bulk-operation record at all. -/
def envNoOp : BulkEnv :=
  { operations := fun _ => none
    members := fun _ => .ok []
    usersEmail := fun _ => .ok []
    latestDraft := fun _ => .ok none
    fetchAllSources := fun _ _ => .ok 0
    genDraft := fun _ _ => .ok ""
    markdownToHtml := fun s => s
    injectTracking := fun h _ _ => h
    sendEmail := fun _ _ _ => .ok ()
    markLatestDraftSent := fun _ => .ok () }

/-- A draft-pipeline environment with exactly one loaded content item (id 1;
its short title yields no trend terms), no style files and no LLM
credential. -/
def envGen : GenEnv :=
  { recentContent := fun u => if u = "u" then [⟨1, "abc", "http://a", "", none⟩] else []
    styleFiles := fun _ => []
    download := fun _ _ => none
    groqApiKey := none
    groqSdkAvailable := false
    llm := fun _ _ => .ok ""
    now := 0 }

/-- Five recent items repeating the term "launch", no baseline items. -/
def trendItemsRecent : List ContentRow :=
  List.replicate 5 ⟨0, "launch", "", "", some 0⟩

/-- Four baseline-window items (3 days old) repeating the term "struggle",
no recent items. -/
def trendItemsBaseline : List ContentRow :=
  List.replicate 4 ⟨0, "struggle", "", "", some (-259200)⟩

/-- A twitter upstream whose primary tier yields two tweets. -/
def twPrimaryTwo : TwitterUpstream :=
  { primaryYield := [⟨some "hello", some "11"⟩, ⟨some "world", some "22"⟩]
    mirror := fun _ => .error ()
    jina := fun _ => .error () }

/-- A twitter upstream whose primary tier fails and whose first RSS-bridge
mirror returns two entries. -/
def twMirrorTwo : TwitterUpstream :=
  { primaryYield := []
    mirror := fun h =>
      if h = "https://nitter.net" then
        .ok [⟨some "m1", some "http://m/1", some ""⟩, ⟨some "m2", some "http://m/2", some ""⟩]
      else .error ()
    jina := fun _ => .error () }

/-- A twitter upstream whose primary tier fails, whose first mirror raises
and whose second mirror returns two entries. -/
def twMirrorSecond : TwitterUpstream :=
  { primaryYield := []
    mirror := fun h =>
      if h = "https://nitter.poast.org" then
        .ok [⟨some "m1", some "http://m/1", some ""⟩, ⟨some "m2", some "http://m/2", some ""⟩]
      else .error ()
    jina := fun _ => .error () }

/-- A twitter upstream whose primary and mirror tiers yield nothing and
whose readability-proxy tier skips a 503 host before the second host
returns three status ids (one a duplicate). -/
def twJinaSecond : TwitterUpstream :=
  { primaryYield := []
    mirror := fun _ => .error ()
    jina := fun h =>
      if h = "nitter.poast.org" then .ok ⟨200, ["101", "202", "101"]⟩
      else .ok ⟨503, []⟩ }

/-- A video-channel upstream answering a direct feed URL with one entry. -/
def ytFeedOne : YoutubeUpstream :=
  { feedParse := fun u =>
      if u = "https://www.youtube.com/feeds/videos.xml?channel_id=X" then
        .ok [⟨some "v1", some "http://v/1", some ""⟩]
      else .error ()
    ytdlp := fun _ => .error () }

/-- A video-channel upstream answering the yt_dlp listing with three
entries. -/
def ytListThree : YoutubeUpstream :=
  { feedParse := fun _ => .error ()
    ytdlp := fun u =>
      if u = "https://youtube.com/@creator/videos" then
        .ok [⟨some "a", none, some "A", some "", none⟩,
             ⟨some "b", none, some "B", some "", none⟩,
             ⟨some "c", none, some "C", some "", none⟩]
      else .error () }

/-- The C10 end-to-end scenario: one rss source (boost 1.0) whose feed has
3 items and one social-feed source (boost 1.0) whose primary tier fails but
whose first mirror returns 2 entries; the persistence behaviour is left as
parameters. -/
def envC10 (upsertOk : Bool) (insertOk : Nat → Bool) : FetchEnv :=
  { sources := [⟨1, "rss", "http://feed", 1⟩, ⟨2, "twitter", "creator", 1⟩]
    twitter := fun v => if v = "creator" then twMirrorTwo else twPrimaryTwo
    youtube := fun _ => ytFeedOne
    rss := fun v =>
      if v = "http://feed" then
        .ok [⟨some "r1", some "http://r/1", some ""⟩,
             ⟨some "r2", some "http://r/2", some ""⟩,
             ⟨some "r3", some "http://r/3", some ""⟩]
      else .error ()
    upsertOk := upsertOk
    insertOk := insertOk }

/-!  ## Helper lemmas: the per-target loop  -/

theorem runTargetsAux_counters (f : String → TargetResult) (ws : List String)
    (acc : List (String × TargetResult) × Nat × Nat) :
    (runTargetsAux f ws acc).2.1 + (runTargetsAux f ws acc).2.2 =
      acc.2.1 + acc.2.2 + ws.length := by
  induction ws generalizing acc with
  | nil => simp [runTargetsAux]
  | cons w ws ih =>
    simp only [runTargetsAux]
    split <;> (rw [ih]; simp only [List.length_cons]; omega)

theorem mem_dictSet {m : List (String × TargetResult)} {k : String} {v : TargetResult}
    {p : String × TargetResult} (h : p ∈ dictSet m k v) : p = (k, v) ∨ p ∈ m := by
  unfold dictSet at h
  split at h
  · rcases List.mem_map.mp h with ⟨q, hq, hEq⟩
    by_cases hk : q.1 = k
    · left; rw [if_pos hk] at hEq; exact hEq.symm
    · right; rw [if_neg hk] at hEq; exact hEq ▸ hq
  · rcases List.mem_append.mp h with h | h
    · right; exact h
    · left; simpa using h

theorem keyMem_dictSet (m : List (String × TargetResult)) (k : String) (v : TargetResult) :
    ∃ w, (k, w) ∈ dictSet m k v := by
  unfold dictSet
  split
  · next hAny =>
    rcases List.any_eq_true.mp hAny with ⟨q, hq, hk⟩
    refine ⟨v, List.mem_map.mpr ⟨q, hq, ?_⟩⟩
    rw [if_pos (of_decide_eq_true hk)]
  · exact ⟨v, List.mem_append.mpr (Or.inr (by simp))⟩

theorem keyMem_dictSet_mono {m : List (String × TargetResult)} {k' : String}
    (k : String) (v : TargetResult) (h : ∃ w, (k', w) ∈ m) :
    ∃ w, (k', w) ∈ dictSet m k v := by
  by_cases he : k' = k
  · subst he; exact keyMem_dictSet m k' v
  · rcases h with ⟨w, hw⟩
    unfold dictSet
    split
    · exact ⟨w, List.mem_map.mpr ⟨(k', w), hw, by simp [he]⟩⟩
    · exact ⟨w, List.mem_append.mpr (Or.inl hw)⟩

theorem runTargetsAux_vals (f : String → TargetResult) (ws : List String)
    (acc : List (String × TargetResult) × Nat × Nat)
    (h : ∀ p ∈ acc.1, p.2 = f p.1) :
    ∀ p ∈ (runTargetsAux f ws acc).1, p.2 = f p.1 := by
  induction ws generalizing acc with
  | nil => simpa [runTargetsAux] using h
  | cons w ws ih =>
    simp only [runTargetsAux]
    split <;>
    · apply ih
      intro p hp
      rcases mem_dictSet hp with hE | hM
      · rw [hE]
      · exact h p hM

theorem runTargetsAux_keyMem (f : String → TargetResult) (ws : List String)
    (acc : List (String × TargetResult) × Nat × Nat) (w : String)
    (h : w ∈ ws ∨ ∃ v, (w, v) ∈ acc.1) :
    ∃ v, (w, v) ∈ (runTargetsAux f ws acc).1 := by
  induction ws generalizing acc with
  | nil =>
    rcases h with h | h
    · cases h
    · simpa [runTargetsAux] using h
  | cons w' ws ih =>
    simp only [runTargetsAux]
    split <;>
    · apply ih
      rcases h with h | h
      · rcases List.mem_cons.mp h with hEq | hMem
        · exact Or.inr (hEq ▸ keyMem_dictSet acc.1 w _)
        · exact Or.inl hMem
      · exact Or.inr (keyMem_dictSet_mono _ _ h)

theorem lookup_eq_of_uniform (f : String → TargetResult) (l : List (String × TargetResult))
    (w : String) (hv : ∀ p ∈ l, p.2 = f p.1) (hm : ∃ v, (w, v) ∈ l) :
    l.lookup w = some (f w) := by
  induction l with
  | nil => rcases hm with ⟨v, hv2⟩; cases hv2
  | cons q t ih =>
    rcases q with ⟨k, v⟩
    by_cases hk : w = k
    · subst hk
      have hval : v = f w := hv (w, v) (List.mem_cons_self _ _)
      simp [List.lookup, hval]
    · have hbeq : (w == k) = false := beq_eq_false_iff_ne.mpr hk
      have hstep : List.lookup w ((k, v) :: t) = List.lookup w t := by
        simp [List.lookup, hbeq]
      rw [hstep]
      apply ih
      · intro p hp; exact hv p (List.mem_cons_of_mem _ hp)
      · rcases hm with ⟨v', hv'⟩
        rcases List.mem_cons.mp hv' with hE | hM
        · cases hE; exact absurd rfl hk
        · exact ⟨v', hM⟩

theorem runTargets_lookup (f : String → TargetResult) (ts : List String) (w : String)
    (h : w ∈ ts) : (runTargets f ts).1.lookup w = some (f w) := by
  apply lookup_eq_of_uniform
  · exact runTargetsAux_vals f ts ([], 0, 0) (by simp)
  · exact runTargetsAux_keyMem f ts ([], 0, 0) w (Or.inl h)

/-- What a normally-returning execute method guarantees: status is
"completed", the counters add up to the total, the total is the number of
target workspaces of the operation row, and the results dict is the one the
per-target loop built. -/
theorem executeBulk_ok {f : String → TargetResult} {env : BulkEnv} {oid : Nat} {s : Summary}
    (h : (executeBulk f env oid).outcome = .ok s) :
    s.status = "completed" ∧
    s.progress.completed + s.progress.failed = s.progress.total ∧
    ∃ op, env.operations oid = some op ∧
      s.progress.total = op.target_workspaces.length ∧
      s.results = (runTargets f op.target_workspaces).1 := by
  unfold executeBulk at h
  cases hop : env.operations oid with
  | none => rw [hop] at h; cases h
  | some op =>
    rw [hop] at h
    simp only [Except.ok.injEq] at h
    have hs := h.symm
    subst hs
    refine ⟨?_, ?_, op, rfl, rfl, rfl⟩
    · by_cases hz : (runTargets f op.target_workspaces).2.2 = 0 <;> simp [hz]
    · have hc := runTargetsAux_counters f op.target_workspaces ([], 0, 0)
      simpa [runTargets] using hc

/-- The keyword filter at the `execute_bulk_generate` call site leaves
exactly the unexpected keyword `workspace_id`, so the call always raises
the `TypeError` and the pipeline behind `env.genDraft` is never entered. -/
theorem callBulkGenerate_typeerror (env : BulkEnv) (user_id workspace_id : String) :
    callBulkGenerate env user_id workspace_id = .error (unexpectedKwMsg "workspace_id") := by
  unfold callBulkGenerate
  have hf : bulkGenerateCallKwargs.filter
      (fun k => !generateAndSaveDraftAccepted.contains k) = ["workspace_id"] := by decide
  rw [hf]

/-- A target with at least one member always fails with the `TypeError`
message in `execute_bulk_generate`. -/
theorem generateTarget_failed (env : BulkEnv) (w u : String) (us : List String)
    (h : env.members w = .ok (u :: us)) :
    generateTarget env w = .failed (unexpectedKwMsg "workspace_id") := by
  unfold generateTarget
  rw [h]
  dsimp only
  rw [callBulkGenerate_typeerror]

/-!  ## Claims C1, C2, C3, C6  -/

/-- C1: running `execute_bulk_send` on the three targets A, B, C where B
has no workspace members and A, C succeed returns the summary with
progress {total: 3, completed: 2, failed: 1}, results["B"] failed with
"No members found", and overall status "completed"; moreover every normal
return of `execute_bulk_send` has status "completed" - per-target failures
never make the operation "failed". -/
theorem c1_bulk_send_partial_failure :
    (execute_bulk_send envC1 1).outcome =
      .ok ⟨"completed", ⟨3, 2, 1⟩,
        [("A", .sendSuccess "a@example.com"), ("B", .failed "No members found"),
         ("C", .sendSuccess "c@example.com")]⟩ ∧
    (∀ (env : BulkEnv) (oid : Nat) (s : Summary),
      (execute_bulk_send env oid).outcome = .ok s → s.status = "completed") := by
  constructor
  · decide
  · intro env oid s h
    unfold execute_bulk_send at h
    exact (executeBulk_ok h).1

/-- Witness for C1: the universally quantified part applied to the concrete
three-target scenario. -/
theorem c1_witness :
    (Summary.mk "completed" ⟨3, 2, 1⟩
      [("A", .sendSuccess "a@example.com"), ("B", .failed "No members found"),
       ("C", .sendSuccess "c@example.com")]).status = "completed" := by
  have h := c1_bulk_send_partial_failure
  exact h.2 envC1 1 _ h.1

/-- C2: whenever any of the three execute methods returns normally, the
final progress satisfies completed + failed = total, and total is the
length of the operation row's target-workspace list (duplicates counted,
empty list giving 0 = 0 + 0). -/
theorem c2_progress_conservation :
    ∀ (env : BulkEnv) (oid : Nat) (temp : ℚ) (nl : Int) (s : Summary),
      ((execute_bulk_fetch env oid).outcome = .ok s →
        s.progress.completed + s.progress.failed = s.progress.total ∧
        ∃ op, env.operations oid = some op ∧
          s.progress.total = op.target_workspaces.length) ∧
      ((execute_bulk_generate env oid temp nl).outcome = .ok s →
        s.progress.completed + s.progress.failed = s.progress.total ∧
        ∃ op, env.operations oid = some op ∧
          s.progress.total = op.target_workspaces.length) ∧
      ((execute_bulk_send env oid).outcome = .ok s →
        s.progress.completed + s.progress.failed = s.progress.total ∧
        ∃ op, env.operations oid = some op ∧
          s.progress.total = op.target_workspaces.length) := by
  intro env oid temp nl s
  refine ⟨fun h => ?_, fun h => ?_, fun h => ?_⟩ <;>
  · rcases executeBulk_ok h with ⟨_, hsum, op, hop, htot, _⟩
    exact ⟨hsum, op, hop, htot⟩

/-- Witness for C2: all three implications applied to the concrete
three-target environment. -/
theorem c2_witness :
    ((2 : Nat) + 1 = 3 ∧ ∃ op, envC1.operations 1 = some op ∧
      3 = op.target_workspaces.length) ∧
    ((0 : Nat) + 3 = 3 ∧ ∃ op, envC1.operations 1 = some op ∧
      3 = op.target_workspaces.length) := by
  have hf := (c2_progress_conservation envC1 1 (7/10) 5
    ⟨"completed", ⟨3, 2, 1⟩,
      [("A", .fetchSuccess 0), ("B", .failed "No members found"),
       ("C", .fetchSuccess 0)]⟩).1 (by decide)
  have hg := (c2_progress_conservation envC1 1 (7/10) 5
    ⟨"completed", ⟨3, 0, 3⟩,
      [("A", .failed (unexpectedKwMsg "workspace_id")),
       ("B", .failed "No members found"),
       ("C", .failed (unexpectedKwMsg "workspace_id"))]⟩).2.1 (by decide)
  exact ⟨hf, hg⟩

/-- C3: for every target workspace with at least one member,
`execute_bulk_generate` invokes `generate_and_save_draft` with the
unaccepted keyword `workspace_id`, so the call raises `TypeError`, the
target's result is recorded as failed with that error, the failure is
counted (the target's outcome is a `failed` entry of the loop, so it lands
in `progress.failed` by C2's accounting), and the pipeline (`env.genDraft`)
is never invoked - no draft is generated or saved through the bulk
`draft_generate` path. -/
theorem c3_generate_always_typeerror :
    (∀ (env : BulkEnv) (u w : String),
      callBulkGenerate env u w = .error (unexpectedKwMsg "workspace_id")) ∧
    (∀ (env : BulkEnv) (w u : String) (us : List String),
      env.members w = .ok (u :: us) →
      generateTarget env w = .failed (unexpectedKwMsg "workspace_id")) ∧
    (∀ (env : BulkEnv) (oid : Nat) (op : OperationRow) (temp : ℚ) (nl : Int)
      (w : String) (s : Summary),
      env.operations oid = some op → w ∈ op.target_workspaces →
      (execute_bulk_generate env oid temp nl).outcome = .ok s →
      ∀ (u : String) (us : List String), env.members w = .ok (u :: us) →
        s.results.lookup w = some (.failed (unexpectedKwMsg "workspace_id"))) := by
  refine ⟨callBulkGenerate_typeerror, generateTarget_failed, ?_⟩
  intro env oid op temp nl w s hop hw h u us hmem
  unfold execute_bulk_generate at h
  rcases executeBulk_ok h with ⟨_, _, op', hop', _, hres⟩
  rw [hop] at hop'
  cases hop'
  rw [hres, runTargets_lookup _ _ _ hw, generateTarget_failed env w u us hmem]

/-- Witness for C3: the concrete three-target environment, target "A". -/
theorem c3_witness :
    (Summary.mk "completed" ⟨3, 0, 3⟩
      [("A", .failed (unexpectedKwMsg "workspace_id")),
       ("B", .failed "No members found"),
       ("C", .failed (unexpectedKwMsg "workspace_id"))]).results.lookup "A" =
      some (.failed (unexpectedKwMsg "workspace_id")) := by
  have h := c3_generate_always_typeerror
  exact h.2.2 envC1 1 ⟨"agency", "newsletter_send", ["A", "B", "C"], "operator"⟩
    (7/10) 5 "A" _ (by decide) (by decide) (by decide) "ua" [] (by decide)

/-- C6 counterexample: with no bulk-operation record for the id, the
execute methods raise ValueError("Operation not found") to the caller but
perform **no** status update at all - in particular no update setting
status "failed" or an error_message, contrary to the claim. -/
theorem c6_counterexample :
    (execute_bulk_fetch envNoOp 1).outcome = .error "Operation not found" ∧
    (execute_bulk_fetch envNoOp 1).updates = [] ∧
    (execute_bulk_generate envNoOp 1 (7/10) 5).updates = [] ∧
    (execute_bulk_send envNoOp 1).updates = [] ∧
    ¬ (∃ u, u ∈ (execute_bulk_fetch envNoOp 1).updates ∧ u.status = "failed") := by
  refine ⟨rfl, rfl, rfl, rfl, ?_⟩
  rintro ⟨u, hu, -⟩
  have h : (execute_bulk_fetch envNoOp 1).updates = [] := rfl
  rw [h] at hu
  cases hu

/-- C6 (amended): when no bulk-operation record exists for the given id,
the execute methods raise ValueError("Operation not found") to the caller
before entering the guarded execution phase, so no status update (in
particular no status = "failed" / error_message write) is performed; the
failed-with-error_message path only covers exceptions raised after the
record was loaded. -/
theorem c6_opnotfound_raises_without_update :
    ∀ (env : BulkEnv) (oid : Nat) (temp : ℚ) (nl : Int), env.operations oid = none →
      execute_bulk_fetch env oid = ⟨.error "Operation not found", []⟩ ∧
      execute_bulk_generate env oid temp nl = ⟨.error "Operation not found", []⟩ ∧
      execute_bulk_send env oid = ⟨.error "Operation not found", []⟩ := by
  intro env oid temp nl h
  refine ⟨?_, ?_, ?_⟩ <;>
  · simp only [execute_bulk_fetch, execute_bulk_generate, execute_bulk_send, executeBulk, h]

/-- Witness for C6: the amended statement applied to the record-less
environment. -/
theorem c6_witness :
    execute_bulk_send envNoOp 2 = ⟨.error "Operation not found", []⟩ := by
  have h := c6_opnotfound_raises_without_update envNoOp 2 (7/10) 5 rfl
  exact h.2.2

/-!  ## Claim C4  -/

set_option maxRecDepth 4000 in
/-- C4 counterexample: for a user with one loaded content item,
`selected_item_ids = []` does **not** return the empty string - the filter
clause is `if selected_item_ids:` and an empty list is falsy, so no
filtering happens, a (fallback) draft is produced and `save_draft` **is**
called. -/
theorem c4_counterexample :
    (generate_and_save_draft envGen "u" (some []) (7/10) 5 3 true true true).toOption.map
      GenResult.saved = some true ∧
    (generate_and_save_draft envGen "u" (some []) (7/10) 5 3 true true true).toOption.map
      (fun r => r.text.isEmpty) = some false := by
  constructor <;> decide

/-- C4 (amended): `selected_item_ids = []` is treated exactly like `None`
(the empty list is falsy, so all loaded items are used), while a
**non-empty** selection whose filter leaves no loaded item returns `""` and
performs no persistence call. -/
theorem c4_empty_selection_is_none :
    ∀ (env : GenEnv) (uid : String) (temp : ℚ) (nl nt : Int) (ii il it : Bool),
      generate_and_save_draft env uid (some []) temp nl nt ii il it =
        draftFromItems env uid (list_recent_content env uid 50) temp nl nt ii il it ∧
      generate_and_save_draft env uid none temp nl nt ii il it =
        draftFromItems env uid (list_recent_content env uid 50) temp nl nt ii il it ∧
      ∀ ids : List Int, ids ≠ [] →
        (list_recent_content env uid 50).filter (fun c => ids.contains c.id) = [] →
        generate_and_save_draft env uid (some ids) temp nl nt ii il it = .ok ⟨"", false⟩ := by
  intro env uid temp nl nt ii il it
  refine ⟨rfl, rfl, ?_⟩
  intro ids hne hfil
  have hie : ids.isEmpty = false := by
    cases ids with
    | nil => exact absurd rfl hne
    | cons a l => rfl
  unfold generate_and_save_draft
  dsimp only
  rw [hie, if_neg (by simp), hfil]
  rfl

/-- Witness for C4: the amended statement applied to the one-item
environment with a disjoint selection and with the empty selection. -/
theorem c4_witness :
    generate_and_save_draft envGen "u" (some [99]) (7/10) 5 3 true true true = .ok ⟨"", false⟩ ∧
    generate_and_save_draft envGen "u" (some []) (7/10) 5 3 true true true =
      draftFromItems envGen "u" (list_recent_content envGen "u" 50) (7/10) 5 3 true true true := by
  have h := c4_empty_selection_is_none envGen "u" (7/10) 5 3 true true true
  exact ⟨h.2.2 [99] (by decide) (by decide), h.1⟩

/-!  ## Claim C5  -/

theorem dropWhile_append_cons (p : Char → Bool) (u w : List Char) (c : Char)
    (hc : p c = false) :
    List.dropWhile p (u ++ c :: w) = List.dropWhile p u ++ c :: w := by
  induction u with
  | nil => simp [List.dropWhile, hc]
  | cons a u ih =>
    by_cases h : p a
    · simp [List.dropWhile, h, ih]
    · simp [List.dropWhile, h]

/-- Stripping only removes whitespace from the two ends, so any interior
phrase whose first and last characters are not whitespace survives. -/
theorem pyStripL_preserves_phrase (u mid v : List Char) (c d : Char)
    (hc : pyIsSpace c = false) (hd : pyIsSpace d = false) :
    ∃ u2 v2, pyStripL (u ++ (c :: mid ++ [d]) ++ v) = u2 ++ (c :: mid ++ [d]) ++ v2 := by
  unfold pyStripL
  have h1 : u ++ (c :: mid ++ [d]) ++ v = u ++ c :: (mid ++ d :: v) := by simp
  rw [h1, dropWhile_append_cons _ _ _ _ hc]
  have h2 : (List.dropWhile pyIsSpace u ++ c :: (mid ++ d :: v)).reverse =
      v.reverse ++ d :: (mid.reverse ++ c :: (List.dropWhile pyIsSpace u).reverse) := by
    simp
  rw [h2, dropWhile_append_cons _ _ _ _ hd]
  refine ⟨List.dropWhile pyIsSpace u, (List.dropWhile pyIsSpace v.reverse).reverse, ?_⟩
  simp

/-- C5 (amended): with no LLM credential, `generate_draft` returns the
deterministic fallback draft, whose Curated Links section lists exactly
`min(max(1, num_links), len(content_items))` links (the code slices
`content_items[: max(1, num_links)]`, so `num_links ≤ 0` still yields one
link when content exists), and whose text contains "Curated Links". -/
theorem c5_fallback_curated_links :
    ∀ (env : GenEnv) (ss : List String) (items : List ContentRow) (cname : String)
      (temp : ℚ) (nl : Int) (tr : List String) (ntr : Int) (ii il it : Bool),
      env.groqApiKey = none → items ≠ [] →
      generate_draft env ss items cname temp nl tr ntr ii il it =
        .ok (fallbackDraft items nl tr ntr) ∧
      (curatedLinkLines items nl).length = min (max 1 nl).toNat items.length ∧
      ∃ u2 v2, (fallbackDraft items nl tr ntr).data = u2 ++ "Curated Links".data ++ v2 := by
  intro env ss items cname temp nl tr ntr ii il it hkey hne
  refine ⟨?_, ?_, ?_⟩
  · unfold generate_draft; rw [hkey]
  · simp [curatedLinkLines]
  · have hphrase : "Curated Links".data = 'C' :: ("urated Link".data ++ ['s']) := by decide
    have hsplit :
        ("\n### Intro\nHere\x27s your curated daily pulse, tailored to your style.\n\n### Curated Links\n").data =
        "\n### Intro\nHere\x27s your curated daily pulse, tailored to your style.\n\n### ".data ++
          ('C' :: ("urated Link".data ++ ['s'])) ++ ['\n'] := by decide
    have hdata : (fallbackDraftRaw items nl tr ntr).data =
        "\n### Intro\nHere\x27s your curated daily pulse, tailored to your style.\n\n### ".data ++
          ('C' :: ("urated Link".data ++ ['s'])) ++
          ('\n' :: ((String.intercalate "\n" (curatedLinkLines items nl)).data ++
            "\n\n### Trends to Watch\n".data ++
            (if !(trendLines tr ntr).isEmpty then trendLines tr ntr else defaultTrendsBlock).data ++
            ['\n'])) := by
      unfold fallbackDraftRaw
      simp only [String.data_append, hsplit]
      simp
    have hfd : (fallbackDraft items nl tr ntr).data =
        pyStripL ((fallbackDraftRaw items nl tr ntr).data) := rfl
    rw [hfd, hdata, hphrase]
    exact pyStripL_preserves_phrase _ _ _ 'C' 's' (by decide) (by decide)

/-- C5 counterexample: with one content item and `num_links = 0`, the
fallback draft lists one link, not `min(num_links, len(content_items)) = 0`
links. -/
theorem c5_counterexample :
    (curatedLinkLines [⟨1, "abc", "http://a", "", none⟩] 0).length = 1 ∧
    ¬ ((curatedLinkLines [⟨1, "abc", "http://a", "", none⟩] 0).length
        = (min (0 : Int) 1).toNat) ∧
    generate_draft envGen [] [⟨1, "abc", "http://a", "", none⟩] "Creator" (7/10) 0 [] 3
      true true true = .ok (fallbackDraft [⟨1, "abc", "http://a", "", none⟩] 0 [] 3) := by
  refine ⟨by decide, by decide, rfl⟩

/-- Witness for C5: the amended statement applied to a one-item list with
`num_links = 7`. -/
theorem c5_witness :
    generate_draft envGen [] [⟨1, "abc", "http://a", "", none⟩] "Creator" (7/10) 7 [] 3
      true true true = .ok (fallbackDraft [⟨1, "abc", "http://a", "", none⟩] 7 [] 3) ∧
    (curatedLinkLines [⟨1, "abc", "http://a", "", none⟩] 7).length =
      min (max 1 (7 : Int)).toNat [(⟨1, "abc", "http://a", "", none⟩ : ContentRow)].length ∧
    ∃ u2 v2, (fallbackDraft [⟨1, "abc", "http://a", "", none⟩] 7 [] 3).data =
      u2 ++ "Curated Links".data ++ v2 := by
  have h := c5_fallback_curated_links envGen [] [⟨1, "abc", "http://a", "", none⟩] "Creator"
    (7/10) 7 [] 3 true true true rfl (by decide)
  exact ⟨h.1, h.2.1, h.2.2⟩

/-!  ## Claim C7  -/

theorem mirrorTier_le10 (f : String → Except Unit (List RawEntry)) (hosts : List String) :
    (mirrorTier f hosts).length ≤ 10 := by
  induction hosts with
  | nil => simp [mirrorTier]
  | cons h hs ih =>
    simp only [mirrorTier]
    rcases hf : f h with e | es
    · exact ih
    · by_cases he : es.isEmpty
      · simpa [he] using ih
      · simp [he, List.length_take]

/-- The mirror tier skips every raising or entry-less host before the first
host with entries, wherever that host sits in the list. -/
theorem mirrorTier_skip (f : String → Except Unit (List RawEntry)) (hosts1 : List String)
    (h : String) (hosts2 : List String) (es : List RawEntry)
    (hskip : ∀ h2 ∈ hosts1, f h2 = .error () ∨ f h2 = .ok [])
    (hf : f h = .ok es) (hne : ¬ es.isEmpty = true) :
    mirrorTier f (hosts1 ++ h :: hosts2) = (es.take 10).map (entryItem "Tweet") := by
  induction hosts1 with
  | nil => simp [mirrorTier, hf, hne]
  | cons a l ih =>
    have hl : ∀ h2 ∈ l, f h2 = .error () ∨ f h2 = .ok [] :=
      fun h2 hm => hskip h2 (List.mem_cons_of_mem a hm)
    rcases hskip a (List.mem_cons_self a l) with ha | ha <;>
      simp only [List.cons_append, mirrorTier, ha, List.isEmpty_nil, if_true] <;>
      exact ih hl

/-- A mirror tier in which every host raises or has no entries yields
nothing. -/
theorem mirrorTier_all_skip (f : String → Except Unit (List RawEntry)) (hosts : List String)
    (hskip : ∀ h2 ∈ hosts, f h2 = .error () ∨ f h2 = .ok []) :
    mirrorTier f hosts = [] := by
  induction hosts with
  | nil => rfl
  | cons a l ih =>
    have hl : ∀ h2 ∈ l, f h2 = .error () ∨ f h2 = .ok [] :=
      fun h2 hm => hskip h2 (List.mem_cons_of_mem a hm)
    rcases hskip a (List.mem_cons_self a l) with ha | ha <;>
      simp only [mirrorTier, ha, List.isEmpty_nil, if_true] <;>
      exact ih hl

/-- The readability-proxy tier skips every ≥ 400 or id-less (but
non-raising) host before the first host with ids, wherever it sits. -/
theorem jinaTier_skip (f : String → Except Unit JinaResp) (hosts1 : List String) (h : String)
    (hosts2 : List String) (r : JinaResp)
    (hskip : ∀ h2 ∈ hosts1, ∃ r2, f h2 = .ok r2 ∧ (400 ≤ r2.status ∨ r2.statusIds = []))
    (hf : f h = .ok r) (hst : ¬ 400 ≤ r.status) (hne : ¬ r.statusIds.isEmpty = true) :
    jinaTier f (hosts1 ++ h :: hosts2) = pyDedup r.statusIds := by
  induction hosts1 with
  | nil => simp [jinaTier, hf, hst, hne]
  | cons a l ih =>
    have hl : ∀ h2 ∈ l, ∃ r2, f h2 = .ok r2 ∧ (400 ≤ r2.status ∨ r2.statusIds = []) :=
      fun h2 hm => hskip h2 (List.mem_cons_of_mem a hm)
    rcases hskip a (List.mem_cons_self a l) with ⟨r2, hfa, hcond⟩
    simp only [List.cons_append, jinaTier, hfa]
    by_cases hs : 400 ≤ r2.status
    · rw [if_pos hs]
      exact ih hl
    · rw [if_neg hs]
      have hids : r2.statusIds = [] := by
        rcases hcond with hc | hc
        · exact absurd hc hs
        · exact hc
      simp only [hids, List.isEmpty_nil, if_true]
      exact ih hl

/-- `fetch_twitter` returns exactly `min 10 k` items when the primary
scraping tier yielded `k` tweets. -/
theorem fetch_twitter_primary_exact (env : TwitterUpstream) (v : String)
    (h : ¬ env.primaryYield.isEmpty = true) :
    (fetch_twitter env v).length = min 10 env.primaryYield.length := by
  unfold fetch_twitter
  dsimp only
  rw [if_pos]
  · simp [List.length_take]
  · simpa using h

/-- `fetch_twitter` returns exactly `min 10 k` items when the primary tier
yielded nothing and the first mirror host with entries - after any number
of raising or entry-less hosts - has `k` entries. -/
theorem fetch_twitter_mirror_exact (env : TwitterUpstream) (v : String)
    (hosts1 : List String) (h : String) (hosts2 : List String) (es : List RawEntry)
    (hp : env.primaryYield = [])
    (hdec : nitter_hosts = hosts1 ++ h :: hosts2)
    (hskip : ∀ h2 ∈ hosts1, env.mirror h2 = .error () ∨ env.mirror h2 = .ok [])
    (hf : env.mirror h = .ok es) (hne : ¬ es.isEmpty = true) :
    (fetch_twitter env v).length = min 10 es.length := by
  have hne2 : es ≠ [] := fun hnil => hne (by rw [hnil]; rfl)
  unfold fetch_twitter
  dsimp only
  rw [hp, hdec, mirrorTier_skip env.mirror hosts1 h hosts2 es hskip hf hne]
  simp [List.isEmpty_iff, List.map_eq_nil_iff, List.take_eq_nil_iff, hne2, List.length_take]

/-- `fetch_twitter` returns exactly `min 10 k` items when the primary and
mirror tiers yielded nothing and the first proxy host with ids - after any
number of ≥ 400 or id-less hosts - has `k` de-duplicated ids (a raising
proxy host instead aborts that tier, covered by the ≤ 10 cap). -/
theorem fetch_twitter_jina_exact (env : TwitterUpstream) (v : String)
    (hosts1 : List String) (h : String) (hosts2 : List String) (r : JinaResp)
    (hp : env.primaryYield = [])
    (hm : ∀ h2 ∈ nitter_hosts, env.mirror h2 = .error () ∨ env.mirror h2 = .ok [])
    (hdec : jina_hosts = hosts1 ++ h :: hosts2)
    (hskip : ∀ h2 ∈ hosts1, ∃ r2, env.jina h2 = .ok r2 ∧ (400 ≤ r2.status ∨ r2.statusIds = []))
    (hf : env.jina h = .ok r) (hst : ¬ 400 ≤ r.status) (hne : ¬ r.statusIds.isEmpty = true) :
    (fetch_twitter env v).length = min 10 (pyDedup r.statusIds).length := by
  unfold fetch_twitter
  dsimp only
  rw [hp, mirrorTier_all_skip env.mirror nitter_hosts hm, hdec,
    jinaTier_skip env.jina hosts1 h hosts2 r hskip hf hst hne]
  simp [List.length_take]

/-- C7: every per-source fetcher is a total function (the model never
raises: every tier failure is an explicit `Except`/empty-list branch) that
returns at most 10 items, and whichever tier supplies the result returns
exactly `min 10 k` items when that tier has `k` items available: the
primary scraping tier, the first mirror host with entries (at any position
after skipped hosts), the first proxy host with ids (at any position after
skipped hosts; its available items are the de-duplicated ids), a direct
feed, and both video-channel branches. -/
theorem c7_fetch_cap :
    (∀ (env : TwitterUpstream) (v : String), (fetch_twitter env v).length ≤ 10) ∧
    (∀ (env : YoutubeUpstream) (u : String), (fetch_youtube env u).length ≤ 10) ∧
    (∀ (feed : Except Unit (List RawEntry)), (fetch_rss feed).length ≤ 10) ∧
    (∀ (env : TwitterUpstream) (v : String), ¬ env.primaryYield.isEmpty = true →
      (fetch_twitter env v).length = min 10 env.primaryYield.length) ∧
    (∀ (env : TwitterUpstream) (v : String) (hosts1 : List String) (h : String)
      (hosts2 : List String) (es : List RawEntry),
      env.primaryYield = [] → nitter_hosts = hosts1 ++ h :: hosts2 →
      (∀ h2 ∈ hosts1, env.mirror h2 = .error () ∨ env.mirror h2 = .ok []) →
      env.mirror h = .ok es → ¬ es.isEmpty = true →
      (fetch_twitter env v).length = min 10 es.length) ∧
    (∀ (env : TwitterUpstream) (v : String) (hosts1 : List String) (h : String)
      (hosts2 : List String) (r : JinaResp),
      env.primaryYield = [] →
      (∀ h2 ∈ nitter_hosts, env.mirror h2 = .error () ∨ env.mirror h2 = .ok []) →
      jina_hosts = hosts1 ++ h :: hosts2 →
      (∀ h2 ∈ hosts1, ∃ r2, env.jina h2 = .ok r2 ∧ (400 ≤ r2.status ∨ r2.statusIds = [])) →
      env.jina h = .ok r → ¬ 400 ≤ r.status → ¬ r.statusIds.isEmpty = true →
      (fetch_twitter env v).length = min 10 (pyDedup r.statusIds).length) ∧
    (∀ es : List RawEntry, (fetch_rss (.ok es)).length = min 10 es.length) ∧
    (∀ (env : YoutubeUpstream) (u : String) (es : List RawEntry),
      pyContains u "feeds/videos.xml" = true → env.feedParse u = .ok es →
      (fetch_youtube env u).length = min 10 es.length) ∧
    (∀ (env : YoutubeUpstream) (u : String) (es : List YtEntry),
      pyContains u "feeds/videos.xml" = false → env.ytdlp (ytNormalizeUrl u) = .ok es →
      (fetch_youtube env u).length = min 10 es.length) := by
  refine ⟨?_, ?_, ?_, fetch_twitter_primary_exact, fetch_twitter_mirror_exact,
    fetch_twitter_jina_exact, ?_, ?_, ?_⟩
  · intro env v
    unfold fetch_twitter
    dsimp only
    split
    · simp [List.length_take]
    · split
      · exact mirrorTier_le10 _ _
      · simp [List.length_take]
  · intro env u
    unfold fetch_youtube
    split
    · rcases env.feedParse u with e | es
      · simp
      · simp [List.length_take]
    · rcases env.ytdlp (ytNormalizeUrl u) with e | es
      · simp
      · simp [List.length_take]
  · intro feed
    unfold fetch_rss
    rcases feed with e | es
    · simp
    · simp [List.length_take]
  · intro es
    simp [fetch_rss, List.length_take]
  · intro env u es hc hp
    simp [fetch_youtube, hc, hp, List.length_take]
  · intro env u es hc hy
    simp [fetch_youtube, hc, hy, List.length_take]

/-- Witness for C7: the exactness clauses applied to concrete upstreams -
a primary tier with 2 tweets, a second mirror host with 2 entries after a
raising first host, a second proxy host with 2 distinct ids after a 503
host, a feed with 1 entry and a channel listing with 3 entries. -/
theorem c7_witness :
    (fetch_twitter twPrimaryTwo "creator").length = min 10 twPrimaryTwo.primaryYield.length ∧
    (fetch_twitter twMirrorSecond "creator").length = min 10 2 ∧
    (fetch_twitter twJinaSecond "creator").length = min 10 (pyDedup ["101", "202", "101"]).length ∧
    (fetch_rss (.ok [⟨some "r1", some "http://r/1", some ""⟩])).length = min 10 1 ∧
    (fetch_youtube ytFeedOne "https://www.youtube.com/feeds/videos.xml?channel_id=X").length =
      min 10 1 ∧
    (fetch_youtube ytListThree "https://youtube.com/@creator").length = min 10 3 := by
  have h := c7_fetch_cap
  refine ⟨h.2.2.2.1 twPrimaryTwo "creator" (by decide), ?_, ?_, ?_, ?_, ?_⟩
  · exact h.2.2.2.2.1 twMirrorSecond "creator" ["https://nitter.net"] "https://nitter.poast.org"
      ["https://nitter.fdn.fr", "https://ntrqq.com"]
      [⟨some "m1", some "http://m/1", some ""⟩, ⟨some "m2", some "http://m/2", some ""⟩]
      rfl (by decide) (by decide) (by decide) (by decide)
  · exact h.2.2.2.2.2.1 twJinaSecond "creator" ["nitter.net"] "nitter.poast.org"
      ["nitter.fdn.fr", "ntrqq.com"] ⟨200, ["101", "202", "101"]⟩
      rfl (by decide) (by decide)
      (by
        intro h2 hm
        have h2eq : h2 = "nitter.net" := by simpa using hm
        exact ⟨⟨503, []⟩, by rw [h2eq]; decide, Or.inr rfl⟩)
      rfl (by decide) (by decide)
  · exact h.2.2.2.2.2.2.1 [⟨some "r1", some "http://r/1", some ""⟩]
  · exact h.2.2.2.2.2.2.2.1 ytFeedOne "https://www.youtube.com/feeds/videos.xml?channel_id=X"
      [⟨some "v1", some "http://v/1", some ""⟩] (by decide) (by decide)
  · exact h.2.2.2.2.2.2.2.2 ytListThree "https://youtube.com/@creator"
      [⟨some "a", none, some "A", some "", none⟩, ⟨some "b", none, some "B", some "", none⟩,
       ⟨some "c", none, some "C", some "", none⟩] (by decide) (by decide)

/-!  ## Claim C8  -/

/-- Truncation toward zero agrees with the floor once clamped below by 1:
for non-negative boosts they coincide, and for negative boosts both clamp
to 1. -/
theorem numCopies_eq_floor (q : ℚ) : numCopies q = (max 1 ⌊q⌋).toNat := by
  unfold numCopies pyInt
  by_cases h : 0 ≤ q
  · rw [if_pos h]
  · rw [if_neg h]
    have hq : q ≤ 0 := le_of_lt (lt_of_not_ge h)
    have hc : ⌈q⌉ ≤ 0 := by
      rw [Int.ceil_le]
      exact_mod_cast hq
    have hf : ⌊q⌋ ≤ 0 := le_trans (Int.floor_le_ceil q) hc
    omega

/-- C8: `fetch_all_sources` replicates every fetched item of a source
exactly `max(1, floor(boost_factor))` times (the code truncates with
`int(...)`, which agrees with the floor after the clamp at 1); a boost of
2.4 gives 2 copies and any boost with floor below 1 gives exactly 1
copy. -/
theorem c8_boost_replication :
    (∀ q : ℚ, numCopies q = (max 1 ⌊q⌋).toNat) ∧
    numCopies (12 / 5 : ℚ) = 2 ∧
    (∀ q : ℚ, ⌊q⌋ < 1 → numCopies q = 1) ∧
    (∀ (s : SourceRow) (ws : Option String) (subitems : List ContentItem),
      boostSource s ws subitems =
        subitems.flatMap (fun it =>
          List.replicate ((max 1 ⌊s.boost_factor⌋).toNat) (tagItem s.id ws it))) := by
  refine ⟨numCopies_eq_floor, ?_, ?_, ?_⟩
  · rw [numCopies_eq_floor]
    norm_num
    decide
  · intro q h
    rw [numCopies_eq_floor]
    omega
  · intro s ws subitems
    unfold boostSource
    rw [numCopies_eq_floor]

/-- Witness for C8: a boost of 1/2 has floor 0 < 1 and yields exactly one
copy. -/
theorem c8_witness : numCopies (1 / 2 : ℚ) = 1 := by
  have h := c8_boost_replication
  exact h.2.2.1 (1 / 2) (by norm_num)

/-!  ## Claim C9  -/

theorem mem_insertDesc {x y : String × ℚ} {l : List (String × ℚ)} :
    y ∈ insertDesc x l ↔ y = x ∨ y ∈ l := by
  induction l with
  | nil => simp [insertDesc]
  | cons z zs ih =>
    by_cases h : z.2 ≤ x.2
    · simp [insertDesc, h]
    · simp only [insertDesc, if_neg h, List.mem_cons, ih]
      tauto

theorem sorted_insertDesc {x : String × ℚ} {l : List (String × ℚ)}
    (h : l.Pairwise (fun a b => b.2 ≤ a.2)) :
    (insertDesc x l).Pairwise (fun a b => b.2 ≤ a.2) := by
  induction l with
  | nil => simp [insertDesc]
  | cons z zs ih =>
    rcases List.pairwise_cons.mp h with ⟨hz, hzs⟩
    by_cases hle : z.2 ≤ x.2
    · simp only [insertDesc, if_pos hle]
      refine List.pairwise_cons.mpr ⟨?_, h⟩
      intro y hy
      rcases List.mem_cons.mp hy with rfl | hy
      · exact hle
      · exact le_trans (hz y hy) hle
    · simp only [insertDesc, if_neg hle]
      refine List.pairwise_cons.mpr ⟨?_, ih hzs⟩
      intro y hy
      rcases mem_insertDesc.mp hy with rfl | hy
      · exact le_of_lt (not_le.mp hle)
      · exact hz y hy

theorem sorted_sortByScoreDesc (l : List (String × ℚ)) :
    (sortByScoreDesc l).Pairwise (fun a b => b.2 ≤ a.2) := by
  induction l with
  | nil => simp [sortByScoreDesc]
  | cons x xs ih => exact sorted_insertDesc ih

theorem mem_sortByScoreDesc {y : String × ℚ} {l : List (String × ℚ)} :
    y ∈ sortByScoreDesc l ↔ y ∈ l := by
  induction l with
  | nil => simp [sortByScoreDesc]
  | cons x xs ih => simp [sortByScoreDesc, mem_insertDesc, ih]

/-- C9: every returned pair carries the score
recent_count − 0.5 × baseline_count of its term and is strictly positive,
the list is sorted by score descending, at most 10 pairs are returned; a
term occurring 5 times in the recent window with no baseline scores 5.0
and is included, a term occurring 4 times only in the baseline window
scores −2.0 and is excluded. -/
theorem c9_trend_scoring :
    (∀ (items : List ContentRow) (now : Int) (p : String × ℚ),
      p ∈ compute_trends items now →
      p.2 = ((windowTerms items now).1.count p.1 : ℚ) -
        (1 / 2 : ℚ) * ((windowTerms items now).2.count p.1 : ℚ) ∧ 0 < p.2) ∧
    (∀ (items : List ContentRow) (now : Int),
      (compute_trends items now).Pairwise (fun a b => b.2 ≤ a.2)) ∧
    (∀ (items : List ContentRow) (now : Int), (compute_trends items now).length ≤ 10) ∧
    compute_trends trendItemsRecent 0 = [("launch", (5 : ℚ))] ∧
    compute_trends trendItemsBaseline 0 = [] := by
  refine ⟨?_, ?_, ?_, ?_, ?_⟩
  · intro items now p hp
    unfold compute_trends at hp
    by_cases hie : items.isEmpty
    · rw [if_pos hie] at hp; cases hp
    · rw [if_neg hie] at hp
      dsimp only at hp
      have hp2 : p ∈ sortByScoreDesc
          (trendScores (windowTerms items now).1 (windowTerms items now).2) :=
        (List.take_sublist _ _).subset hp
      have hp3 := mem_sortByScoreDesc.mp hp2
      unfold trendScores at hp3
      dsimp only at hp3
      rcases List.mem_filterMap.mp hp3 with ⟨t, ht, hsome⟩
      by_cases hpos : (0 : ℚ) < ((windowTerms items now).1.count t : ℚ) -
          (1 / 2 : ℚ) * ((windowTerms items now).2.count t : ℚ)
      · rw [if_pos hpos] at hsome
        have hpt := Option.some.inj hsome
        subst hpt
        exact ⟨rfl, hpos⟩
      · rw [if_neg hpos] at hsome
        cases hsome
  · intro items now
    unfold compute_trends
    by_cases hie : items.isEmpty
    · simp [hie]
    · rw [if_neg hie]
      dsimp only
      exact List.Pairwise.sublist (List.take_sublist _ _) (sorted_sortByScoreDesc _)
  · intro items now
    unfold compute_trends
    by_cases hie : items.isEmpty
    · simp [hie]
    · rw [if_neg hie]
      dsimp only
      simp [List.length_take]
  · have hw : windowTerms trendItemsRecent 0 = (List.replicate 5 "launch", []) := by decide
    have hts : trendScores (List.replicate 5 "launch") ([] : List String) =
        [("launch", (5 : ℚ))] := by
      unfold trendScores
      rw [show pyDedup (pyDedup (List.replicate 5 "launch") ++ pyDedup ([] : List String)) =
        ["launch"] from by decide]
      have hc1 : (List.replicate 5 "launch").count "launch" = 5 := by decide
      have hc2 : ([] : List String).count "launch" = 0 := rfl
      simp only [List.filterMap_cons, List.filterMap_nil, hc1, hc2]
      norm_num
    unfold compute_trends
    rw [if_neg (by decide)]
    dsimp only
    rw [hw]
    dsimp only
    rw [hts]
    simp [sortByScoreDesc, insertDesc]
  · have hw : windowTerms trendItemsBaseline 0 = ([], List.replicate 4 "struggle") := by decide
    have hts : trendScores ([] : List String) (List.replicate 4 "struggle") = [] := by
      unfold trendScores
      rw [show pyDedup (pyDedup ([] : List String) ++ pyDedup (List.replicate 4 "struggle")) =
        ["struggle"] from by decide]
      have hc1 : ([] : List String).count "struggle" = 0 := rfl
      have hc2 : (List.replicate 4 "struggle").count "struggle" = 4 := by decide
      simp only [List.filterMap_cons, List.filterMap_nil, hc1, hc2]
      norm_num
    unfold compute_trends
    rw [if_neg (by decide)]
    dsimp only
    rw [hw]
    dsimp only
    rw [hts]
    simp [sortByScoreDesc]

/-- Witness for C9: the score-characterization clause applied to the pair
("launch", 5) of the concrete recent-window input. -/
theorem c9_witness :
    ("launch", (5 : ℚ)).2 = ((windowTerms trendItemsRecent 0).1.count "launch" : ℚ) -
      (1 / 2 : ℚ) * ((windowTerms trendItemsRecent 0).2.count "launch" : ℚ) ∧
    (0 : ℚ) < ("launch", (5 : ℚ)).2 := by
  have h := c9_trend_scoring
  exact h.1 trendItemsRecent 0 ("launch", 5) (by rw [h.2.2.2.1]; simp)

/-!  ## Claim C10  -/

/-- C10: the end-to-end scenario - one rss source (boost 1.0) whose feed
yields 3 items, one social-feed source (boost 1.0) whose primary tier fails
but whose first mirror returns 2 entries - reports count_saved = 5, and the
count does not depend on the persistence behaviour (whether the bulk upsert
works, or which per-row inserts fail). -/
theorem c10_count_saved :
    ∀ (b : Bool) (g : Nat → Bool), fetch_all_sources (envC10 b g) "u" (some "W") = 5 := by
  intro b g
  have h1 : fetchForSource (envC10 b g) ⟨1, "rss", "http://feed", 1⟩ =
      [⟨"r1", "http://r/1", ""⟩, ⟨"r2", "http://r/2", ""⟩, ⟨"r3", "http://r/3", ""⟩] := rfl
  have h2 : fetchForSource (envC10 b g) ⟨2, "twitter", "creator", 1⟩ =
      [⟨"m1", "http://m/1", ""⟩, ⟨"m2", "http://m/2", ""⟩] := rfl
  have hnc : numCopies 1 = 1 := by norm_num [numCopies, pyInt]
  have hs : (envC10 b g).sources = [⟨1, "rss", "http://feed", 1⟩, ⟨2, "twitter", "creator", 1⟩] :=
    rfl
  unfold fetch_all_sources
  rw [hs]
  simp only [List.flatMap_cons, List.flatMap_nil, List.append_nil]
  rw [h1, h2]
  simp only [boostSource, List.flatMap_cons, List.flatMap_nil]
  rw [hnc]
  simp [save_content_items]

end CreatorPulse
